import Mathlib

/-!
Verification of the DEBMM assessment scoring engine (`scorer/score.py`,
`scorer/llm_scorer.py`).

The Python code is shallowly embedded: answers become an inductive `PyVal`
(Python's `bool` is a subclass of `int`, so numeric checks treat booleans as
numbers), Python `dict`s become association lists built with the same
insert-or-replace / setdefault-append operations the code performs, floats are
modelled by rationals, and Python's `round` (half-to-even) is `pyRound`.
-/

attribute [local semireducible] Rat.add Rat.sub Rat.mul Rat.inv

namespace Debmm

/-- A raw Python answer value as it reaches the scorer: `None`, `bool`,
`int`, `float` (modelled as a rational) or `str`. -/
inductive PyVal where
  | none
  | bool (b : Bool)
  | int (n : ℤ)
  | float (q : ℚ)
  | str (s : String)
deriving DecidableEq

/-- `isinstance(answer, (int, float))`: booleans count as integers in Python. -/
def PyVal.isNumeric : PyVal → Bool
  | .bool _ => true
  | .int _ => true
  | .float _ => true
  | _ => false

/-- Numeric value used by Python comparisons such as `1 <= answer <= 5`
(`True` compares as 1, `False` as 0). -/
def PyVal.toRat : PyVal → ℚ
  | .bool b => if b then 1 else 0
  | .int n => (n : ℚ)
  | .float q => q
  | _ => 0

/-- Truncation toward zero, the behaviour of Python's `int()` on floats. -/
def ratTrunc (q : ℚ) : ℤ :=
  if 0 ≤ q then q.floor else -((-q).floor)

/-- `int(answer)` for a numeric Python value. -/
def PyVal.toPyInt : PyVal → ℤ
  | .bool b => if b then 1 else 0
  | .int n => n
  | .float q => ratTrunc q
  | _ => 0

/-- Rendering of a value inside an f-string error message (float rendering is
approximated by the rational's representation; no claim depends on the text). -/
def PyVal.fmt : PyVal → String
  | .none => "None"
  | .bool b => if b then "True" else "False"
  | .int n => toString n
  | .float q => toString q
  | .str s => s

/-- Python's `round(q)`: round half to even. -/
def pyRound (q : ℚ) : ℤ :=
  let f := q.floor
  let r := q - (f : ℚ)
  if r < 1/2 then f
  else if (1 : ℚ)/2 < r then f + 1
  else if f % 2 = 0 then f else f + 1

/-- Python's `round(q, 2)`: round to two decimal places, half to even. -/
def round2 (q : ℚ) : ℚ := (pyRound (q * 100) : ℚ) / 100

/-! ### Python dictionaries as association lists

A `dict` is an association list in insertion order; assignment replaces the
value in place for an existing key and appends a new key at the end, exactly
as CPython does. -/

/-- `d[k]`, as an `Option`. -/
def dictGet {α : Type} (d : List (String × α)) (k : String) : Option α :=
  match d with
  | [] => Option.none
  | (k2, v) :: rest => if k2 = k then some v else dictGet rest k

/-- `k in d`. -/
def dictHas {α : Type} (d : List (String × α)) (k : String) : Bool :=
  (dictGet d k).isSome

/-- `d[k] = v`: replace in place if the key exists, else append. -/
def dictSet {α : Type} (d : List (String × α)) (k : String) (v : α) :
    List (String × α) :=
  if dictHas d k then d.map (fun p => if p.1 = k then (k, v) else p)
  else d ++ [(k, v)]

/-- A dict built from a sequence of key/value pairs (a comprehension or a
sequence of assignments): later values win, first insertion fixes position. -/
def dictOf {α : Type} (ps : List (String × α)) : List (String × α) :=
  ps.foldl (fun d p => dictSet d p.1 p.2) []

/-- `d.setdefault(k, []).append(v)`. -/
def groupAdd {α : Type} (d : List (String × List α)) (k : String) (v : α) :
    List (String × List α) :=
  if dictHas d k then d.map (fun p => if p.1 = k then (p.1, p.2 ++ [v]) else p)
  else d ++ [(k, [v])]

/-! ### Data model -/

/-- A questionnaire question. `yes_value` embeds
`question["scoring"]["yes_value"]`, which the source reads only for checklist
questions. -/
structure Question where
  id : String
  qtype : String
  yes_value : ℚ
  criterion : String
  tier : String
deriving DecidableEq

/-- The dict returned by `score_question`, plus the `criterion`/`tier` keys
`run_scoring` attaches afterwards. -/
structure QuestionScoreResult where
  id : String
  qtype : String
  score : Option ℚ
  status : String
  raw_answer : Option PyVal
  error : Option String := Option.none
  criterion : String := ""
  tier : String := ""
deriving DecidableEq

/-- `score_question` from `scorer/score.py`. -/
def score_question (question : Question) (answer : PyVal) : QuestionScoreResult :=
  if answer = PyVal.none then
    { id := question.id, qtype := question.qtype, score := Option.none,
      status := "unanswered", raw_answer := Option.none }
  else if question.qtype = "checklist" then
    match answer with
    | .bool b =>
      { id := question.id, qtype := question.qtype,
        score := some (if b then question.yes_value else 1),
        status := "scored", raw_answer := some answer }
    | _ =>
      { id := question.id, qtype := question.qtype, score := Option.none,
        status := "invalid", raw_answer := some answer,
        error := some ("Expected boolean, got " ++ answer.fmt) }
  else if question.qtype = "scale" then
    if answer.isNumeric = true ∧ 1 ≤ answer.toRat ∧ answer.toRat ≤ 5 then
      { id := question.id, qtype := question.qtype,
        score := some (answer.toPyInt : ℚ),
        status := "scored", raw_answer := some answer }
    else
      { id := question.id, qtype := question.qtype, score := Option.none,
        status := "invalid", raw_answer := some answer,
        error := some ("Expected integer 1-5, got " ++ answer.fmt) }
  else if question.qtype = "text" then
    let has_content : Bool := match answer with
      | .str s => s.trim != ""
      | _ => false
    if has_content then
      { id := question.id, qtype := question.qtype, score := Option.none,
        status := "needs_review", raw_answer := some answer }
    else
      { id := question.id, qtype := question.qtype, score := Option.none,
        status := "unanswered", raw_answer := Option.none }
  else
    { id := question.id, qtype := question.qtype, score := Option.none,
      status := "unknown_type", raw_answer := some answer }

/-- The five maturity level names; `level_names.get(level, "Unknown")`. -/
def levelName (n : ℤ) : String :=
  if n = 1 then "Initial"
  else if n = 2 then "Repeatable"
  else if n = 3 then "Defined"
  else if n = 4 then "Managed"
  else if n = 5 then "Optimized"
  else "Unknown"

/-- The dict returned by `compute_criterion_score` (the unscored branch has no
`level_name` key, modelled as `none`). -/
structure CriterionScore where
  score : Option ℚ
  level : Option ℤ
  level_name : Option String
  scored_count : ℕ
  total_count : ℕ
  needs_review_count : ℕ
deriving DecidableEq

/-- `compute_criterion_score` from `scorer/score.py`. -/
def compute_criterion_score (criterion_scores : List QuestionScoreResult) :
    CriterionScore :=
  let scored := criterion_scores.filter (fun s => s.score.isSome)
  let needs_review := criterion_scores.filter (fun s => s.status = "needs_review")
  if scored.isEmpty then
    { score := Option.none, level := Option.none, level_name := Option.none,
      scored_count := 0, total_count := criterion_scores.length,
      needs_review_count := needs_review.length }
  else
    let avg := (scored.map (fun s => s.score.getD 0)).sum / (scored.length : ℚ)
    let level := pyRound avg
    { score := some (round2 avg), level := some level,
      level_name := some (levelName level),
      scored_count := scored.length, total_count := criterion_scores.length,
      needs_review_count := needs_review.length }

/-- A per-criterion result dict as stored in the result document. -/
structure CriterionResult where
  score : Option ℚ
  level : Option ℤ
  level_name : Option String
  scored_count : ℕ
  total_count : ℕ
  needs_review_count : ℕ
  name : String
  weight : ℚ
  tier_id : String
  tier_name : String
  questions : List QuestionScoreResult
  includes_llm_scores : Bool := false
deriving DecidableEq

/-- One entry of the `tier_scores` dict. -/
structure TierData where
  name : String
  score : Option ℚ
  criteria : List (String × CriterionResult)
deriving DecidableEq

/-- The dict returned by `determine_tier`. -/
structure TierDetermination where
  tier_number : ℤ
  tier_name : String
  description : String
deriving DecidableEq

/-- `core_tier_order` in `determine_tier`. -/
def coreTierOrder : List String := ["tier_0", "tier_1", "tier_2", "tier_3", "tier_4"]

/-- The `tier_names` display map in `determine_tier`. -/
def tierDisplayName (tid : String) : String :=
  if tid = "tier_0" then "Tier 0: Foundation"
  else if tid = "tier_1" then "Tier 1: Basic"
  else if tid = "tier_2" then "Tier 2: Intermediate"
  else if tid = "tier_3" then "Tier 3: Advanced"
  else if tid = "tier_4" then "Tier 4: Expert"
  else ""

/-- The `all_defined` gate: every criterion of the tier has a non-null score
that is at least 3.0. -/
def tierPasses (td : TierData) : Bool :=
  td.criteria.all fun p =>
    match p.2.score with
    | some s => decide (3 ≤ s)
    | Option.none => false

/-- The walk of `determine_tier` over the core tier order: stop at the first
absent or failing tier, otherwise record the tier as achieved and continue. -/
def detLoop (ts : List (String × TierData)) :
    List String → ℤ → ℤ × String → ℤ × String
  | [], _, acc => acc
  | tid :: rest, i, acc =>
    match dictGet ts tid with
    | Option.none => acc
    | some td =>
      if tierPasses td then detLoop ts rest (i + 1) (i, tierDisplayName tid)
      else acc

/-- `determine_tier` from `scorer/score.py`. -/
def determine_tier (tier_scores : List (String × TierData)) : TierDetermination :=
  let r := detLoop tier_scores coreTierOrder 0 (-1, "Below Foundation")
  { tier_number := r.1, tier_name := r.2,
    description :=
      if 0 ≤ r.1 then
        "All criteria through " ++ r.2 ++ " meet or exceed Defined (3.0) level."
      else
        "Not all Tier 0 (Foundation) criteria meet Defined (3.0) level." }

/-! ### The `run_scoring` pipeline -/

/-- A rubric criterion entry (`weight` is an optional YAML key). -/
structure RubricCriterion where
  id : String
  name : String
  weight : Option ℚ := Option.none
deriving DecidableEq

/-- A rubric tier entry. -/
structure RubricTier where
  id : String
  name : String
  criteria : List RubricCriterion
deriving DecidableEq

/-- The rubric document. -/
structure Rubric where
  tiers : List RubricTier
deriving DecidableEq

/-- A `c_index` entry: the criterion merged with its tier id and name. -/
structure CritMeta where
  name : String
  weight : Option ℚ
  tier_id : String
  tier_name : String
deriving DecidableEq

/-- `build_criterion_index` from `scorer/score.py`. -/
def build_criterion_index (rubric : Rubric) : List (String × CritMeta) :=
  dictOf ((rubric.tiers.map (fun t =>
    t.criteria.map (fun c =>
      (c.id, ({ name := c.name, weight := c.weight,
                tier_id := t.id, tier_name := t.name } : CritMeta))))).flatten)

/-- `build_question_index` from `scorer/score.py`. -/
def build_question_index (qs : List Question) : List (String × Question) :=
  dictOf (qs.map fun q => (q.id, q))

/-- The per-question scoring loop of `run_scoring`: each question of the index
is scored against its (possibly absent) answer, and the question's criterion and
tier ids are attached to the result. -/
def questionScores (qidx : List (String × Question))
    (responses : List (String × PyVal)) : List (String × QuestionScoreResult) :=
  qidx.map fun p =>
    let answer := (dictGet responses p.1).getD PyVal.none
    (p.1, { score_question p.2 answer with
            criterion := p.2.criterion, tier := p.2.tier })

/-- The `criterion_groups` accumulation of `run_scoring`
(`setdefault(crit, []).append(qs)` over the question scores in order). -/
def criterionGroups (qscores : List (String × QuestionScoreResult)) :
    List (String × List QuestionScoreResult) :=
  qscores.foldl (fun d p => groupAdd d p.2.criterion p.2) []

/-- One entry of `criterion_results`: `compute_criterion_score` plus the
criterion metadata (missing metadata falls back to the defaults the code
supplies through `.get`). -/
def mkCriterionResult (cidx : List (String × CritMeta)) (crit_id : String)
    (scores : List QuestionScoreResult) : CriterionResult :=
  let cs := compute_criterion_score scores
  let meta := dictGet cidx crit_id
  { score := cs.score, level := cs.level, level_name := cs.level_name,
    scored_count := cs.scored_count, total_count := cs.total_count,
    needs_review_count := cs.needs_review_count,
    name := (meta.map (fun m => m.name)).getD crit_id,
    weight := (meta.bind (fun m => m.weight)).getD 1,
    tier_id := (meta.map (fun m => m.tier_id)).getD "unknown",
    tier_name := (meta.map (fun m => m.tier_name)).getD "Unknown",
    questions := scores }

/-- The `criterion_results` dict of `run_scoring`. -/
def criterionResults (cidx : List (String × CritMeta))
    (groups : List (String × List QuestionScoreResult)) :
    List (String × CriterionResult) :=
  groups.map fun p => (p.1, mkCriterionResult cidx p.1 p.2)

/-- One entry of the `tier_scores` dict of `run_scoring`: collect the tier's
criteria present in `criterion_results`, and weight-average the non-null
scores (`None` when the accumulated weight is not positive). -/
def mkTierData (crs : List (String × CriterionResult)) (tier : RubricTier) :
    TierData :=
  let tier_criteria := tier.criteria.foldl (fun d c =>
    match dictGet crs c.id with
    | some r => dictSet d c.id r
    | Option.none => d) []
  let scores_for_avg := tier.criteria.filterMap (fun c =>
    match dictGet crs c.id with
    | some r => if r.score.isSome then some (r.score.getD 0 * r.weight) else Option.none
    | Option.none => Option.none)
  let total_weight := (tier.criteria.filterMap (fun c =>
    match dictGet crs c.id with
    | some r => if r.score.isSome then some r.weight else Option.none
    | Option.none => Option.none)).sum
  { name := tier.name,
    score := if 0 < total_weight then some (round2 (scores_for_avg.sum / total_weight))
             else Option.none,
    criteria := tier_criteria }

/-- The `tier_scores` dict of `run_scoring`. -/
def tierScoresOf (rubric : Rubric) (crs : List (String × CriterionResult)) :
    List (String × TierData) :=
  dictOf (rubric.tiers.map fun t => (t.id, mkTierData crs t))

/-- The overall weighted average at the end of `run_scoring`. -/
def overallScoreOf (crs : List (String × CriterionResult)) : Option ℚ :=
  let scoredCrits := (crs.map (fun p => p.2)).filter (fun c => c.score.isSome)
  let all_weighted := scoredCrits.map (fun c => c.score.getD 0 * c.weight)
  let total_weight := (scoredCrits.map (fun c => c.weight)).sum
  if 0 < total_weight then some (round2 (all_weighted.sum / total_weight))
  else Option.none

/-- The result document (the fields of `run_scoring`'s return value that the
scoring/merge logic reads; report-only fields are omitted). -/
structure ScoringResults where
  overall_score : Option ℚ
  tier_determination : TierDetermination
  tier_scores : List (String × TierData)
  llm_enhanced : Bool := false
deriving DecidableEq

/-- The `criterion_results` computed by `run_scoring` for given inputs. -/
def scoringCriterionResults (rubric : Rubric) (qn : List Question)
    (responses : List (String × PyVal)) : List (String × CriterionResult) :=
  criterionResults (build_criterion_index rubric)
    (criterionGroups (questionScores (build_question_index qn) responses))

/-- `run_scoring` from `scorer/score.py` (the pure scoring pipeline; file
loading, report rendering and the `needs_review`/`issues`/`recommendations`
report lists are outside the claims). -/
def runScoring (rubric : Rubric) (qn : List Question)
    (responses : List (String × PyVal)) : ScoringResults :=
  let crs := scoringCriterionResults rubric qn responses
  let tiers := tierScoresOf rubric crs
  { overall_score := overallScoreOf crs,
    tier_determination := determine_tier tiers,
    tier_scores := tiers }

/-! ### `merge_llm_scores` from `scorer/llm_scorer.py` -/

/-- One entry of the external `text_scores` array. -/
structure TextScore where
  id : String
  criterion : Option String
  score : ℚ
deriving DecidableEq

/-- The external analysis document (`text_scores` key may be absent). -/
structure LlmAnalysis where
  text_scores : Option (List TextScore)
deriving DecidableEq

/-- Python truthiness filter for an optional string (`None` and `""` are
falsy). -/
def truthy : Option String → Option String
  | some c => if c = "" then Option.none else some c
  | Option.none => Option.none

/-- `ts.get("criterion") or q_index.get(ts["id"], {}).get("criterion")`,
followed by the `if crit:` truthiness check. -/
def resolveCriterion (qidx : List (String × Question)) (ts : TextScore) :
    Option String :=
  match truthy ts.criterion with
  | some c => some c
  | Option.none => truthy ((dictGet qidx ts.id).map (fun q => q.criterion))

/-- The `llm_by_criterion` map: external scores grouped by resolved criterion
id (entries with a falsy criterion are dropped). -/
def llmByCriterion (qidx : List (String × Question)) (tss : List TextScore) :
    List (String × List ℚ) :=
  tss.foldl (fun d ts =>
    match resolveCriterion qidx ts with
    | some c => groupAdd d c ts.score
    | Option.none => d) []

/-- The in-place criterion update of `merge_llm_scores`: average the
criterion's existing non-null question scores together with the external
scores, and refresh score, level and level name. -/
def updateCriterion (ls : List ℚ) (cd : CriterionResult) : CriterionResult :=
  let existing := (cd.questions.filter (fun q => q.score.isSome)).map
    (fun q => q.score.getD 0)
  let all_scores := existing ++ ls
  let new_avg := round2 (all_scores.sum / (all_scores.length : ℚ))
  let new_level := pyRound new_avg
  { cd with score := some new_avg, level := some new_level,
            level_name := some (levelName new_level),
            includes_llm_scores := true }

/-- The tier-average recomputation inside `merge_llm_scores` (weight default
1.0 is the stored weight in our model, since `run_scoring` always sets it). -/
def tierScoreRecompute (criteria : List (String × CriterionResult)) : Option ℚ :=
  let cs := criteria.map (fun p => p.2)
  let tier_scores_list := cs.filterMap (fun c =>
    if c.score.isSome then some (c.score.getD 0 * c.weight) else Option.none)
  let tier_weights := ((cs.filter (fun c => c.score.isSome)).map
    (fun c => c.weight)).sum
  if 0 < tier_weights then some (round2 (tier_scores_list.sum / tier_weights))
  else Option.none

/-- One criterion entry of the merge loop: criteria with external scores are
updated in place, the rest are untouched. -/
def mergeCriterionEntry (llmBy : List (String × List ℚ))
    (p : String × CriterionResult) : String × CriterionResult :=
  match dictGet llmBy p.1 with
  | some ls => (p.1, updateCriterion ls p.2)
  | Option.none => p

/-- The per-tier body of `merge_llm_scores`: update every criterion that has
external scores, then recompute the tier average from the updated criteria. -/
def mergeTier (llmBy : List (String × List ℚ)) (td : TierData) : TierData :=
  let newCriteria := td.criteria.map (mergeCriterionEntry llmBy)
  { name := td.name,
    score := tierScoreRecompute newCriteria,
    criteria := newCriteria }

/-- One tier entry of the merge loop. -/
def mergeTierEntry (llmBy : List (String × List ℚ)) (p : String × TierData) :
    String × TierData :=
  (p.1, mergeTier llmBy p.2)

/-- The overall-score recomputation at the end of `merge_llm_scores`, taken
over the criteria stored in the tiers of the document. -/
def overallRecompute (tiers : List (String × TierData)) : Option ℚ :=
  let allCrits := (tiers.map (fun p => p.2.criteria.map (fun c => c.2))).flatten
  let scored := allCrits.filter (fun c => c.score.isSome)
  let all_weighted := scored.map (fun c => c.score.getD 0 * c.weight)
  let total_weight := (scored.map (fun c => c.weight)).sum
  if 0 < total_weight then some (round2 (all_weighted.sum / total_weight))
  else Option.none

/-- `merge_llm_scores` from `scorer/llm_scorer.py`. Note that it rewrites
criterion scores, tier scores and the overall score, but not
`tier_determination`. -/
def merge_llm_scores (results : ScoringResults) (llm : LlmAnalysis)
    (qn : List Question) : ScoringResults :=
  match llm.text_scores with
  | Option.none => results
  | some tss =>
    let qidx := build_question_index qn
    let llmBy := llmByCriterion qidx tss
    let newTiers := results.tier_scores.map (mergeTierEntry llmBy)
    { results with
      tier_scores := newTiers,
      overall_score := overallRecompute newTiers,
      llm_enhanced := true }

/-! ### Concrete inputs used by counterexamples and witnesses -/

/-- A one-tier rubric used in concrete instantiations. -/
def rubricW : Rubric :=
  ⟨[⟨"tier_0", "Tier 0: Foundation", [⟨"c0", "C0", some 1⟩]⟩]⟩

/-- Its questionnaire: a single scale question for criterion c0. -/
def questionsW : List Question := [⟨"q1", "scale", 0, "c0", "tier_0"⟩]

/-- A fully scored result document used in concrete instantiations. -/
def resultsW : ScoringResults :=
  runScoring rubricW questionsW [("q1", PyVal.int 4)]

/-- A questionnaire with one question attached to a criterion that is not in
the rubric ("orphan"). -/
def questionsOrphan : List Question :=
  [⟨"q1", "scale", 0, "c0", "tier_0"⟩, ⟨"q2", "scale", 0, "orphan", "tier_0"⟩]

/-- The result document for the orphan questionnaire. -/
def resultsOrphan : ScoringResults :=
  runScoring rubricW questionsOrphan [("q1", PyVal.int 4), ("q2", PyVal.int 2)]

/-- A questionnaire with a checklist question whose `yes_value` is 7. -/
def questionsYes7 : List Question := [⟨"q1", "checklist", 7, "c0", "tier_0"⟩]

/-- Witness input: one scored scale question, one text question pending
review, one unanswered question. -/
def qasW : List (Question × PyVal) :=
  [(⟨"q1", "scale", 0, "c0", "t"⟩, PyVal.int 4),
   (⟨"q2", "text", 0, "c0", "t"⟩, PyVal.str "hello"),
   (⟨"q3", "scale", 0, "c0", "t"⟩, PyVal.none)]

/-! ### Statement-side definitions used by the claims -/

/-- The gating check for one tier id of a tier-results dict: the tier is
present and every one of its criteria has a non-null score of at least 3.0. -/
def tierOk (ts : List (String × TierData)) (tid : String) : Bool :=
  match dictGet ts tid with
  | some td => tierPasses td
  | Option.none => false

/-- A concrete criterion-result value used in witness instantiations. -/
def sampleCriterion (s : Option ℚ) : CriterionResult :=
  { score := s, level := Option.none, level_name := Option.none,
    scored_count := 0, total_count := 0, needs_review_count := 0,
    name := "sample", weight := 1, tier_id := "", tier_name := "",
    questions := [] }

/-- The question results whose status is `scored`, the set over which the
spec defines the criterion mean. -/
def scoredResults (l : List QuestionScoreResult) : List QuestionScoreResult :=
  l.filter (fun r => r.status = "scored")

/-- The spec's overall-score formula: the weight-normalized mean
`Σ(score × weight) / Σ(weight)` over all criteria with non-null score, rounded
to two decimal places, and null when nothing is scored. -/
def weightNormalizedMean (crs : List (String × CriterionResult)) : Option ℚ :=
  let scored := (crs.map (fun p => p.2)).filter (fun c => c.score.isSome)
  let total_weight := (scored.map (fun c => c.weight)).sum
  if 0 < total_weight then
    some (round2 ((scored.map (fun c => c.score.getD 0 * c.weight)).sum
      / total_weight))
  else Option.none

/-! ### Helper lemmas about `score_question` -/

theorem scoreQuestion_isSome_iff_scored (q : Question) (a : PyVal) :
    (score_question q a).score.isSome = true ↔
      (score_question q a).status = "scored" := by
  unfold score_question
  cases a <;> split_ifs <;> simp_all <;> split_ifs <;> simp_all

theorem scoreQuestion_status_cases (q : Question) (a : PyVal) :
    (score_question q a).status = "scored" ∨
    (score_question q a).status = "unanswered" ∨
    (score_question q a).status = "invalid" ∨
    (score_question q a).status = "needs_review" ∨
    (score_question q a).status = "unknown_type" := by
  unfold score_question
  cases a <;> split_ifs <;> simp_all <;> split_ifs <;> simp_all

/-! ### Claim theorems -/

/-- C10: `score_question` returns a non-null score exactly when its status is
`scored`, and its status is always one of the five statuses
`scored`, `unanswered`, `invalid`, `needs_review`, `unknown_type`; hence
filtering question results by non-null score selects exactly the `scored`
questions. -/
theorem scoreQuestion_score_status_invariant (q : Question) (a : PyVal) :
    ((score_question q a).score ≠ Option.none ↔
      (score_question q a).status = "scored") ∧
    ((score_question q a).status = "scored" ∨
     (score_question q a).status = "unanswered" ∨
     (score_question q a).status = "invalid" ∨
     (score_question q a).status = "needs_review" ∨
     (score_question q a).status = "unknown_type") :=
  ⟨Option.isSome_iff_ne_none.symm.trans (scoreQuestion_isSome_iff_scored q a),
   scoreQuestion_status_cases q a⟩

/-- C2 counterexample: the claim says a non-integer-valued number such as 4.5
must be invalid for a scale question, but the code accepts any numeric value
in [1,5] and truncates it, returning status `scored` with score 4. -/
theorem scale_float_counterexample :
    (score_question ⟨"q1", "scale", 0, "c0", "tier_0"⟩
        (PyVal.float (9/2))).status = "scored" ∧
    (score_question ⟨"q1", "scale", 0, "c0", "tier_0"⟩
        (PyVal.float (9/2))).score = some 4 ∧
    ¬ (score_question ⟨"q1", "scale", 0, "c0", "tier_0"⟩
        (PyVal.float (9/2))).status = "invalid" := by
  decide

/-- C2 (amended): for a scale question and a non-null answer, if the answer is
numeric (`int`, `float`, or `bool`, which Python treats as `int`) with value in
[1,5] then `score_question` returns status `scored` with the answer truncated
to an integer as the score; every other non-null answer yields status
`invalid`, a null score, and an error message describing the expected range. -/
theorem scale_scoring_amended (q : Question) (a : PyVal)
    (hq : q.qtype = "scale") (ha : ¬ a = PyVal.none) :
    (a.isNumeric = true ∧ 1 ≤ a.toRat ∧ a.toRat ≤ 5 →
      (score_question q a).status = "scored" ∧
      (score_question q a).score = some (a.toPyInt : ℚ)) ∧
    (¬ (a.isNumeric = true ∧ 1 ≤ a.toRat ∧ a.toRat ≤ 5) →
      (score_question q a).status = "invalid" ∧
      (score_question q a).score = Option.none ∧
      (score_question q a).error.isSome = true) := by
  unfold score_question
  rw [if_neg ha, if_neg (by rw [hq]; decide), if_pos hq]
  constructor
  · intro hcond; rw [if_pos hcond]; exact ⟨rfl, rfl⟩
  · intro hcond; rw [if_neg hcond]; exact ⟨rfl, rfl, rfl⟩

/-- Witness for C2 (amended) at concrete inputs: a scale answer of 3 scores,
and a string answer is invalid. -/
theorem scale_scoring_amended_witness :
    (score_question ⟨"q1", "scale", 0, "c0", "t"⟩ (PyVal.int 3)).status
        = "scored" ∧
    (score_question ⟨"q1", "scale", 0, "c0", "t"⟩ (PyVal.str "x")).status
        = "invalid" :=
  ⟨((scale_scoring_amended ⟨"q1", "scale", 0, "c0", "t"⟩ (PyVal.int 3) rfl
      (by decide)).1 (by decide)).1,
   ((scale_scoring_amended ⟨"q1", "scale", 0, "c0", "t"⟩ (PyVal.str "x") rfl
      (by decide)).2 (by decide)).1⟩

/-- One step of `detLoop` when the next tier id is absent. -/
theorem detLoop_cons_none (ts : List (String × TierData)) (tid : String)
    (rest : List String) (i : ℤ) (acc : ℤ × String)
    (h : dictGet ts tid = Option.none) :
    detLoop ts (tid :: rest) i acc = acc := by
  unfold detLoop
  rw [h]

/-- One step of `detLoop` when the next tier passes its gate. -/
theorem detLoop_cons_pass (ts : List (String × TierData)) (tid : String)
    (rest : List String) (i : ℤ) (acc : ℤ × String) (td : TierData)
    (h : dictGet ts tid = some td) (hp : tierPasses td = true) :
    detLoop ts (tid :: rest) i acc
      = detLoop ts rest (i + 1) (i, tierDisplayName tid) := by
  simp only [detLoop]
  rw [h]
  simp [hp]

/-- One step of `detLoop` when the next tier fails its gate. -/
theorem detLoop_cons_fail (ts : List (String × TierData)) (tid : String)
    (rest : List String) (i : ℤ) (acc : ℤ × String) (td : TierData)
    (h : dictGet ts tid = some td) (hp : tierPasses td = false) :
    detLoop ts (tid :: rest) i acc = acc := by
  unfold detLoop
  rw [h]
  simp [hp]

/-- The walk of `detLoop` never reports a tier at or past a failing index:
if the tier at relative position `j` of the remaining order fails its gate,
the returned tier number stays below `i + j`. -/
theorem detLoop_lt (ts : List (String × TierData)) :
    ∀ (order : List String) (i : ℤ) (acc : ℤ × String), acc.1 < i →
      ∀ (j : ℕ) (hj : j < order.length), tierOk ts (order.get ⟨j, hj⟩) = false →
        (detLoop ts order i acc).1 < i + j := by
  intro order
  induction order with
  | nil =>
    intro i acc hacc j hj
    exact absurd hj (by simp)
  | cons tid rest ih =>
    intro i acc hacc j hj hfail
    cases j with
    | zero =>
      have hfail0 : tierOk ts tid = false := by simpa using hfail
      rcases hget : dictGet ts tid with _ | td
      · rw [detLoop_cons_none ts tid rest i acc hget]
        simpa using hacc
      · have hp : tierPasses td = false := by
          unfold tierOk at hfail0
          rw [hget] at hfail0
          exact hfail0
        rw [detLoop_cons_fail ts tid rest i acc td hget hp]
        simpa using hacc
    | succ j' =>
      rcases hget : dictGet ts tid with _ | td
      · rw [detLoop_cons_none ts tid rest i acc hget]
        push_cast
        omega
      · cases hp : tierPasses td with
        | false =>
          rw [detLoop_cons_fail ts tid rest i acc td hget hp]
          push_cast
          omega
        | true =>
          rw [detLoop_cons_pass ts tid rest i acc td hget hp]
          have hrec := ih (i + 1) (i, tierDisplayName tid) (by omega) j'
            (by simpa using hj) (by simpa using hfail)
          push_cast at hrec ⊢
          omega

/-- C1: tier determination is monotone over the fixed core tier order: for any
tier-results input, if the tier at index `k` of `coreTierOrder` fails its gate
(absent, or some criterion has a null score or a score below 3.0), then the
achieved tier number reported by `determine_tier` is strictly below `k`,
regardless of the higher tiers' own scores. -/
theorem determine_tier_monotone (ts : List (String × TierData)) (k : ℕ)
    (hk : k < coreTierOrder.length)
    (hfail : tierOk ts (coreTierOrder.get ⟨k, hk⟩) = false) :
    (determine_tier ts).tier_number < k := by
  have h := detLoop_lt ts coreTierOrder 0 (-1, "Below Foundation")
    (by norm_num) k hk hfail
  unfold determine_tier
  simpa using h

/-- Witness for C1: tier_0 passes, tier_1 fails, so the achieved tier number
is below 1 (and in fact 0). -/
theorem determine_tier_monotone_witness :
    (determine_tier
      [("tier_0", ⟨"T0", Option.none, [("c0", sampleCriterion (some 4))]⟩),
       ("tier_1", ⟨"T1", Option.none, [("c1", sampleCriterion (some 2))]⟩),
       ("tier_2", ⟨"T2", Option.none, [("c2", sampleCriterion (some 5))]⟩)]).tier_number
      < 1 :=
  determine_tier_monotone
    [("tier_0", ⟨"T0", Option.none, [("c0", sampleCriterion (some 4))]⟩),
     ("tier_1", ⟨"T1", Option.none, [("c1", sampleCriterion (some 2))]⟩),
     ("tier_2", ⟨"T2", Option.none, [("c2", sampleCriterion (some 5))]⟩)]
    1 (by decide) (by decide)

/-- C3 counterexample: a rubric whose tier_0 has a criterion but receives no
question results yields a tier_0 entry with an empty criteria map, which the
code treats as vacuously passing: the achieved tier is 0, not -1 as the claim
requires for an entirely unscored tier_0. -/
theorem tier0_unscored_counterexample :
    ((runScoring ⟨[⟨"tier_0", "Tier 0: Foundation", [⟨"c0", "C0", some 1⟩]⟩]⟩
        [] []).tier_scores.map (fun p => (p.1, p.2.criteria)))
      = [("tier_0", [])] ∧
    (runScoring ⟨[⟨"tier_0", "Tier 0: Foundation", [⟨"c0", "C0", some 1⟩]⟩]⟩
        [] []).tier_determination.tier_number = 0 ∧
    ¬ (runScoring ⟨[⟨"tier_0", "Tier 0: Foundation", [⟨"c0", "C0", some 1⟩]⟩]⟩
        [] []).tier_determination.tier_number = -1 := by
  decide

/-- C3 (amended): if tier_0 fails its gating check — it is absent, or some of
its criteria has a null or below-3.0 score, which in particular covers a
tier_0 with at least one criterion none of which is scored — `determine_tier`
returns tier number -1 named "Below Foundation". (A tier_0 entry whose
criteria map is empty vacuously passes the gate instead.) -/
theorem below_foundation_amended (ts : List (String × TierData)) :
    (tierOk ts "tier_0" = false →
      (determine_tier ts).tier_number = -1 ∧
      (determine_tier ts).tier_name = "Below Foundation") ∧
    (∀ td, dictGet ts "tier_0" = some td → ¬ td.criteria = [] →
      (∀ c ∈ td.criteria, c.2.score = Option.none) →
      tierOk ts "tier_0" = false) := by
  constructor
  · intro h
    have hstop : detLoop ts coreTierOrder 0 (-1, "Below Foundation")
        = (-1, "Below Foundation") := by
      unfold coreTierOrder
      rcases hget : dictGet ts "tier_0" with _ | td
      · exact detLoop_cons_none ts "tier_0" _ 0 _ hget
      · have hp : tierPasses td = false := by
          unfold tierOk at h
          rw [hget] at h
          exact h
        exact detLoop_cons_fail ts "tier_0" _ 0 _ td hget hp
    unfold determine_tier
    rw [hstop]
    exact ⟨rfl, rfl⟩
  · intro td hget hne hnone
    unfold tierOk
    rw [hget]
    obtain ⟨c, hc⟩ := List.exists_mem_of_ne_nil td.criteria hne
    unfold tierPasses
    rw [List.all_eq_false]
    refine ⟨c, hc, ?_⟩
    rw [hnone c hc]
    decide

/-- Witness for C3 (amended): tier_0 present with a single unscored criterion
fails the gate and yields "Below Foundation". -/
theorem below_foundation_amended_witness :
    (determine_tier [("tier_0",
        ⟨"T0", Option.none, [("c0", sampleCriterion Option.none)]⟩)]).tier_number
      = -1 :=
  ((below_foundation_amended
      [("tier_0", ⟨"T0", Option.none, [("c0", sampleCriterion Option.none)]⟩)]).1
    (by decide)).1

/-- C6 counterexample: after a merge that lifts a tier_0 criterion from 2.0 to
3.5, the stored tier determination is still -1 while recomputing
`determine_tier` from the stored tier scores yields 0 — the merged document's
tier determination is stale. -/
theorem stale_tier_determination_counterexample :
    (merge_llm_scores
        (runScoring ⟨[⟨"tier_0", "Tier 0: Foundation", [⟨"c0", "C0", some 1⟩]⟩]⟩
          [⟨"q1", "scale", 0, "c0", "tier_0"⟩] [("q1", PyVal.int 2)])
        ⟨some [⟨"tx", some "c0", 5⟩]⟩
        [⟨"q1", "scale", 0, "c0", "tier_0"⟩]).tier_determination.tier_number
      = -1 ∧
    (determine_tier (merge_llm_scores
        (runScoring ⟨[⟨"tier_0", "Tier 0: Foundation", [⟨"c0", "C0", some 1⟩]⟩]⟩
          [⟨"q1", "scale", 0, "c0", "tier_0"⟩] [("q1", PyVal.int 2)])
        ⟨some [⟨"tx", some "c0", 5⟩]⟩
        [⟨"q1", "scale", 0, "c0", "tier_0"⟩]).tier_scores).tier_number = 0 := by
  decide

/-- C6 (amended): the document produced by `run_scoring` stores a tier
determination equal to `determine_tier` of its stored tier scores, but
`merge_llm_scores` copies the input document's tier determination unchanged,
so after a merge that moves criterion scores across the 3.0 gate the stored
tier determination can differ from recomputation. -/
theorem tier_determination_derivation (rubric : Rubric) (qn : List Question)
    (responses : List (String × PyVal)) (r : ScoringResults)
    (llm : LlmAnalysis) (qn2 : List Question) :
    (runScoring rubric qn responses).tier_determination
      = determine_tier (runScoring rubric qn responses).tier_scores ∧
    (merge_llm_scores r llm qn2).tier_determination = r.tier_determination := by
  refine ⟨rfl, ?_⟩
  unfold merge_llm_scores
  rcases llm.text_scores with _ | tss <;> rfl

/-- C4: for question results produced by `score_question`, the criterion score
of `compute_criterion_score` is null exactly when no question has status
`scored`, and otherwise equals the arithmetic mean (rounded to two decimal
places) of the scores of exactly the `scored` questions — unanswered, invalid
and needs-review questions contribute to neither numerator nor denominator. -/
theorem criterion_score_is_scored_mean (qas : List (Question × PyVal)) :
    ((compute_criterion_score (qas.map (fun p => score_question p.1 p.2))).score
        = Option.none ↔
      scoredResults (qas.map (fun p => score_question p.1 p.2)) = []) ∧
    (¬ scoredResults (qas.map (fun p => score_question p.1 p.2)) = [] →
      (compute_criterion_score (qas.map (fun p => score_question p.1 p.2))).score
        = some (round2
            (((scoredResults (qas.map (fun p => score_question p.1 p.2))).map
                (fun r => r.score.getD 0)).sum
              / ((scoredResults (qas.map (fun p => score_question p.1 p.2))).length
                  : ℚ)))) := by
  have hfilt : (qas.map (fun p => score_question p.1 p.2)).filter
        (fun s => s.score.isSome)
      = scoredResults (qas.map (fun p => score_question p.1 p.2)) := by
    unfold scoredResults
    apply List.filter_congr
    intro r hr
    rcases List.mem_map.mp hr with ⟨p, hp, rfl⟩
    by_cases hs : (score_question p.1 p.2).status = "scored"
    · rw [(scoreQuestion_isSome_iff_scored p.1 p.2).mpr hs]
      simp [hs]
    · have hns : (score_question p.1 p.2).score.isSome = false := by
        cases h : (score_question p.1 p.2).score.isSome
        · rfl
        · exact absurd ((scoreQuestion_isSome_iff_scored p.1 p.2).mp h) hs
      rw [hns]
      simp [hs]
  simp only [compute_criterion_score]
  rw [hfilt]
  by_cases hemp : scoredResults (qas.map (fun p => score_question p.1 p.2)) = []
  · rw [if_pos (by simp [hemp])]
    exact ⟨by simp [hemp], fun h => absurd hemp h⟩
  · rw [if_neg (by simp [hemp])]
    refine ⟨⟨fun h => absurd h (by simp), fun h => absurd h hemp⟩, fun h => rfl⟩

/-- Witness for C4 at a concrete input with one scored question of score 4. -/
theorem criterion_score_is_scored_mean_witness :
    ¬ scoredResults (qasW.map (fun p => score_question p.1 p.2)) = [] ∧
    (compute_criterion_score (qasW.map (fun p => score_question p.1 p.2))).score
      = some (round2
          (((scoredResults (qasW.map (fun p => score_question p.1 p.2))).map
              (fun r => r.score.getD 0)).sum
            / ((scoredResults (qasW.map (fun p => score_question p.1 p.2))).length
                : ℚ))) :=
  ⟨by decide, (criterion_score_is_scored_mean qasW).2 (by decide)⟩

/-- C9: the overall score stored by `run_scoring` equals the weight-normalized
mean `Σ(score × weight) / Σ(weight)` over all criterion results (core and
enrichment alike) with non-null score, rounded to two decimal places, and is
null when no criterion is scored. -/
theorem overall_score_weight_normalized (rubric : Rubric) (qn : List Question)
    (responses : List (String × PyVal)) :
    (runScoring rubric qn responses).overall_score
        = weightNormalizedMean (scoringCriterionResults rubric qn responses) ∧
    ((∀ p ∈ scoringCriterionResults rubric qn responses,
        p.2.score = Option.none) →
      (runScoring rubric qn responses).overall_score = Option.none) := by
  constructor
  · rfl
  · intro h
    have hfe : ((scoringCriterionResults rubric qn responses).map
          (fun p => p.2)).filter (fun c => c.score.isSome) = [] := by
      rw [List.filter_eq_nil_iff]
      intro c hc
      rcases List.mem_map.mp hc with ⟨p, hp, rfl⟩
      rw [h p hp]
      simp
    show overallScoreOf _ = Option.none
    simp only [overallScoreOf]
    rw [hfe]
    simp

/-- Updating a criterion with the same external scores twice is the same as
updating it once: the update reads only the untouched per-question list. -/
theorem updateCriterion_idem (ls : List ℚ) (cd : CriterionResult) :
    updateCriterion ls (updateCriterion ls cd) = updateCriterion ls cd := by
  cases cd
  rfl

/-- One merge-loop criterion entry is idempotent. -/
theorem mergeCriterionEntry_idem (llmBy : List (String × List ℚ))
    (p : String × CriterionResult) :
    mergeCriterionEntry llmBy (mergeCriterionEntry llmBy p)
      = mergeCriterionEntry llmBy p := by
  rcases hget : dictGet llmBy p.1 with _ | ls <;>
    simp [mergeCriterionEntry, hget, updateCriterion_idem]

/-- The per-tier merge body is idempotent. -/
theorem mergeTier_idem (llmBy : List (String × List ℚ)) (td : TierData) :
    mergeTier llmBy (mergeTier llmBy td) = mergeTier llmBy td := by
  have hcrit : (td.criteria.map (mergeCriterionEntry llmBy)).map
        (mergeCriterionEntry llmBy)
      = td.criteria.map (mergeCriterionEntry llmBy) := by
    rw [List.map_map]
    exact List.map_congr_left (fun p _ => mergeCriterionEntry_idem llmBy p)
  simp [mergeTier, hcrit]

/-- One merge-loop tier entry is idempotent. -/
theorem mergeTierEntry_idem (llmBy : List (String × List ℚ))
    (p : String × TierData) :
    mergeTierEntry llmBy (mergeTierEntry llmBy p) = mergeTierEntry llmBy p := by
  simp [mergeTierEntry, mergeTier_idem]

/-- C5: merging the same external score set twice — the second merge applied
to the already-merged, recomputed results — yields the same results (criterion,
tier and overall scores alike) as merging once, because each merge re-derives
every affected criterion average from the document's unchanged per-question
score list plus the external scores. -/
theorem merge_llm_scores_idempotent (r : ScoringResults) (llm : LlmAnalysis)
    (qn : List Question) :
    merge_llm_scores (merge_llm_scores r llm qn) llm qn
      = merge_llm_scores r llm qn := by
  rcases hts : llm.text_scores with _ | tss
  · simp [merge_llm_scores, hts]
  · have hmap : (r.tier_scores.map
          (mergeTierEntry (llmByCriterion (build_question_index qn) tss))).map
        (mergeTierEntry (llmByCriterion (build_question_index qn) tss))
        = r.tier_scores.map
            (mergeTierEntry (llmByCriterion (build_question_index qn) tss)) := by
      rw [List.map_map]
      exact List.map_congr_left (fun p _ => mergeTierEntry_idem _ p)
    simp [merge_llm_scores, hts, hmap]

/-- Unfolding equation for `dictGet` on a cons cell. -/
theorem dictGet_cons {α : Type} (a : String) (b : α) (rest : List (String × α))
    (k : String) :
    dictGet ((a, b) :: rest) k = if a = k then some b else dictGet rest k := rfl

/-- `setdefault`-appending under a different key does not change a lookup. -/
theorem dictGet_groupAdd_ne {α : Type} (d : List (String × List α))
    (k k' : String) (v : α) (hne : ¬ k' = k) :
    dictGet (groupAdd d k v) k' = dictGet d k' := by
  unfold groupAdd
  split_ifs with h
  · clear h
    induction d with
    | nil => rfl
    | cons p rest ih =>
      rcases p with ⟨a, b⟩
      simp only [List.map_cons]
      by_cases ha : a = k
      · rw [if_pos (by simpa using ha)]
        rw [dictGet_cons, dictGet_cons]
        have hak : ¬ a = k' := fun hh => hne ((hh.symm.trans ha))
        rw [if_neg hak, if_neg hak]
        exact ih
      · rw [if_neg (by simpa using ha)]
        rw [dictGet_cons, dictGet_cons]
        by_cases hak : a = k'
        · rw [if_pos hak, if_pos hak]
        · rw [if_neg hak, if_neg hak]
          exact ih
  · clear h
    induction d with
    | nil =>
      show dictGet [(k, [v])] k' = dictGet [] k'
      rw [dictGet_cons]
      rw [if_neg (fun hh => hne hh.symm)]
    | cons p rest ih =>
      rcases p with ⟨a, b⟩
      simp only [List.cons_append, dictGet_cons]
      by_cases hak : a = k'
      · rw [if_pos hak, if_pos hak]
      · rw [if_neg hak, if_neg hak]
        exact ih

/-- If a key is not in a dict, no entry carries it. -/
theorem key_ne_of_dictHas_false {α : Type} (d : List (String × α)) (k : String)
    (h : dictHas d k = false) : ∀ p ∈ d, ¬ p.1 = k := by
  induction d with
  | nil =>
    intro p hp
    simp at hp
  | cons q rest ih =>
    intro p hp
    rcases q with ⟨a, b⟩
    unfold dictHas at h
    rw [dictGet_cons] at h
    by_cases ha : a = k
    · rw [if_pos ha] at h
      simp at h
    · rw [if_neg ha] at h
      rcases List.mem_cons.mp hp with rfl | hp'
      · exact ha
      · exact ih h p hp'

/-- Mapping a pointwise-identity function over a list is the identity. -/
theorem list_map_self {α : Type} (f : α → α) :
    ∀ l : List α, (∀ a ∈ l, f a = a) → l.map f = l := by
  intro l
  induction l with
  | nil => intro hl; rfl
  | cons a t ih =>
    intro hl
    simp only [List.map_cons]
    rw [hl a (List.mem_cons_self a t), ih (fun b hb => hl b (List.mem_cons_of_mem a hb))]

/-- C7 (amended): merging with a missing `text_scores` key returns the
document unchanged. Merging an empty external score list leaves every
criterion entry and the tier determination unchanged, and — whenever the
document's stored tier and overall scores agree with the merge's own
recomputation formulas, as they do for `run_scoring` documents whose
questions' criteria all appear in the rubric — returns the document unchanged
except for the `llm_enhanced` flag it sets. An external score whose resolved
criterion id is not among the document's criteria is ignored without error
and leaves all other criteria's results unaffected. (The original claim's
unconditional no-op fails: the merge recomputes the overall score over only
the criteria stored in rubric tiers and sets the `llm_enhanced` flag.) -/
theorem merge_zero_and_unknown_scores (r : ScoringResults) (qn : List Question)
    (tss : List TextScore) (b : TextScore) :
    (merge_llm_scores r ⟨Option.none⟩ qn = r) ∧
    ((merge_llm_scores r ⟨some []⟩ qn).tier_scores.map
          (fun p => (p.1, p.2.criteria))
        = r.tier_scores.map (fun p => (p.1, p.2.criteria)) ∧
      (merge_llm_scores r ⟨some []⟩ qn).tier_determination
        = r.tier_determination ∧
      ((∀ p ∈ r.tier_scores, p.2.score = tierScoreRecompute p.2.criteria) →
        r.overall_score = overallRecompute r.tier_scores →
        merge_llm_scores r ⟨some []⟩ qn = { r with llm_enhanced := true })) ∧
    ((∀ c, resolveCriterion (build_question_index qn) b = some c →
        ∀ p ∈ r.tier_scores, dictHas p.2.criteria c = false) →
      merge_llm_scores r ⟨some (tss ++ [b])⟩ qn
        = merge_llm_scores r ⟨some tss⟩ qn) := by
  have hmce : ∀ p : String × CriterionResult,
      mergeCriterionEntry ([] : List (String × List ℚ)) p = p := fun p => rfl
  have hmt : ∀ td : TierData, mergeTier [] td
      = { name := td.name, score := tierScoreRecompute td.criteria,
          criteria := td.criteria } := by
    intro td
    unfold mergeTier
    rw [list_map_self _ td.criteria (fun p _ => hmce p)]
  refine ⟨rfl, ⟨?_, rfl, ?_⟩, ?_⟩
  · show (r.tier_scores.map (mergeTierEntry [])).map (fun p => (p.1, p.2.criteria))
        = r.tier_scores.map (fun p => (p.1, p.2.criteria))
    rw [List.map_map]
    apply List.map_congr_left
    intro p _
    show (p.1, (mergeTier [] p.2).criteria) = (p.1, p.2.criteria)
    rw [hmt p.2]
  · intro hscores hoverall
    have htiers : r.tier_scores.map (mergeTierEntry []) = r.tier_scores := by
      apply list_map_self
      intro p hp
      unfold mergeTierEntry
      rw [hmt p.2, ← hscores p hp]
    show ({ r with
        tier_scores := r.tier_scores.map (mergeTierEntry []),
        overall_score := overallRecompute (r.tier_scores.map (mergeTierEntry [])),
        llm_enhanced := true } : ScoringResults) = { r with llm_enhanced := true }
    rw [htiers, ← hoverall]
  · intro hb
    have hfold : ∀ tl : List TextScore,
        llmByCriterion (build_question_index qn) (tl ++ [b])
          = (match resolveCriterion (build_question_index qn) b with
             | some c => groupAdd (llmByCriterion (build_question_index qn) tl)
                 c b.score
             | Option.none => llmByCriterion (build_question_index qn) tl) := by
      intro tl
      unfold llmByCriterion
      rw [List.foldl_append]
      rfl
    rcases hres : resolveCriterion (build_question_index qn) b with _ | c
    · show ({ r with
          tier_scores := r.tier_scores.map
            (mergeTierEntry (llmByCriterion (build_question_index qn) (tss ++ [b]))),
          overall_score := overallRecompute (r.tier_scores.map
            (mergeTierEntry (llmByCriterion (build_question_index qn) (tss ++ [b])))),
          llm_enhanced := true } : ScoringResults) = _
      rw [hfold tss, hres]
      rfl
    · have hkeys := fun p hp => key_ne_of_dictHas_false p.2.criteria c (hb c hres p hp)
      have hentry : ∀ p ∈ r.tier_scores,
          mergeTierEntry (groupAdd (llmByCriterion (build_question_index qn) tss)
              c b.score) p
            = mergeTierEntry (llmByCriterion (build_question_index qn) tss) p := by
        intro p hp
        unfold mergeTierEntry
        have hcrit : p.2.criteria.map (mergeCriterionEntry
              (groupAdd (llmByCriterion (build_question_index qn) tss) c b.score))
            = p.2.criteria.map (mergeCriterionEntry
              (llmByCriterion (build_question_index qn) tss)) := by
          apply List.map_congr_left
          intro q hq
          unfold mergeCriterionEntry
          rw [dictGet_groupAdd_ne _ _ _ _ (hkeys p hp q hq)]
        unfold mergeTier
        rw [hcrit]
      have hmap : r.tier_scores.map (mergeTierEntry
            (groupAdd (llmByCriterion (build_question_index qn) tss) c b.score))
          = r.tier_scores.map (mergeTierEntry
            (llmByCriterion (build_question_index qn) tss)) :=
        List.map_congr_left hentry
      show ({ r with
          tier_scores := r.tier_scores.map
            (mergeTierEntry (llmByCriterion (build_question_index qn) (tss ++ [b]))),
          overall_score := overallRecompute (r.tier_scores.map
            (mergeTierEntry (llmByCriterion (build_question_index qn) (tss ++ [b])))),
          llm_enhanced := true } : ScoringResults) = _
      rw [hfold tss, hres, hmap]
      rfl

/-- C7 counterexample: with zero external scores the merge is not a no-op on
a document containing a criterion that is not in the rubric: the original
overall score 3.0 averages both criteria, while the merge recomputes the
overall over rubric-tier criteria only, yielding 4.0, so the merged document
differs from the original. -/
theorem merge_empty_not_noop_counterexample :
    resultsOrphan.overall_score = some 3 ∧
    (merge_llm_scores resultsOrphan ⟨some []⟩ questionsOrphan).overall_score
      = some 4 ∧
    ¬ merge_llm_scores resultsOrphan ⟨some []⟩ questionsOrphan = resultsOrphan := by
  decide

/-- Witness for C7 at a concrete consistent document: the empty merge only
sets `llm_enhanced`, and a score for the unknown criterion "ghost" is
ignored. -/
theorem merge_zero_and_unknown_scores_witness :
    merge_llm_scores resultsW ⟨some []⟩ questionsW
        = { resultsW with llm_enhanced := true } ∧
    merge_llm_scores resultsW ⟨some ([] ++ [⟨"zz", some "ghost", 5⟩])⟩ questionsW
        = merge_llm_scores resultsW ⟨some []⟩ questionsW :=
  ⟨((merge_zero_and_unknown_scores resultsW questionsW []
        ⟨"zz", some "ghost", 5⟩).2.1).2.2 (by decide) (by decide),
   (merge_zero_and_unknown_scores resultsW questionsW []
        ⟨"zz", some "ghost", 5⟩).2.2 (by
      intro c hc
      have h0 : resolveCriterion (build_question_index questionsW)
          ⟨"zz", some "ghost", 5⟩ = some "ghost" := by decide
      rw [h0] at hc
      injection hc with hcg
      subst hcg
      decide)⟩

/-- Witness for C9: a run with no answers has no scored criterion and a null
overall score. -/
theorem overall_score_weight_normalized_witness :
    (runScoring ⟨[⟨"tier_0", "T0", [⟨"c0", "C0", some 1⟩]⟩]⟩
        [⟨"q1", "scale", 0, "c0", "tier_0"⟩] []).overall_score = Option.none :=
  (overall_score_weight_normalized ⟨[⟨"tier_0", "T0", [⟨"c0", "C0", some 1⟩]⟩]⟩
      [⟨"q1", "scale", 0, "c0", "tier_0"⟩] []).2 (by decide)

/-- C8 counterexample: nothing bounds a checklist question's `yes_value`, so a
rubric/questionnaire with `yes_value = 7` produces a criterion score of 7.0,
outside [1,5]. -/
theorem criterion_score_above_five_counterexample :
    ((runScoring rubricW questionsYes7 [("q1", PyVal.bool true)]).tier_scores.map
        (fun p => p.2.criteria.map (fun c => (c.1, c.2.score))))
      = [[("c0", some 7)]] ∧
    ¬ (7 : ℚ) ≤ 5 := by
  decide

/-- An entry of `dictSet d k v` is an entry of `d` or the pair `(k, v)`. -/
theorem mem_dictSet {α : Type} (d : List (String × α)) (k : String) (v : α)
    (p : String × α) (hp : p ∈ dictSet d k v) : p ∈ d ∨ p = (k, v) := by
  unfold dictSet at hp
  split_ifs at hp with h
  · rcases List.mem_map.mp hp with ⟨q, hq, hqe⟩
    by_cases hqk : q.1 = k
    · rw [if_pos hqk] at hqe
      right
      exact hqe.symm
    · rw [if_neg hqk] at hqe
      left
      exact hqe ▸ hq
  · rcases List.mem_append.mp hp with h1 | h2
    · exact Or.inl h1
    · right
      simpa using h2

/-- An entry of a dict built by repeated assignment is one of the assigned
pairs. -/
theorem mem_foldl_dictSet {α : Type} :
    ∀ (l : List (String × α)) (acc : List (String × α)) (p : String × α),
      p ∈ l.foldl (fun d q => dictSet d q.1 q.2) acc → p ∈ acc ∨ p ∈ l := by
  intro l
  induction l with
  | nil =>
    intro acc p hp
    exact Or.inl hp
  | cons q t ih =>
    intro acc p hp
    rcases ih (dictSet acc q.1 q.2) p hp with h1 | h2
    · rcases mem_dictSet acc q.1 q.2 p h1 with h3 | h4
      · exact Or.inl h3
      · right
        rw [h4]
        exact List.mem_cons_self _ _
    · exact Or.inr (List.mem_cons_of_mem q h2)

/-- An entry of `dictOf l` is an entry of `l`. -/
theorem mem_dictOf {α : Type} (l : List (String × α)) (p : String × α)
    (hp : p ∈ dictOf l) : p ∈ l := by
  rcases mem_foldl_dictSet l [] p hp with h1 | h2
  · exact absurd h1 (by simp)
  · exact h2

/-- A successful lookup returns an entry of the dict. -/
theorem dictGet_mem {α : Type} :
    ∀ (d : List (String × α)) (k : String) (v : α),
      dictGet d k = some v → (k, v) ∈ d := by
  intro d
  induction d with
  | nil =>
    intro k v h
    exact absurd h (by simp [dictGet])
  | cons q t ih =>
    intro k v h
    rcases q with ⟨a, b⟩
    rw [dictGet_cons] at h
    split_ifs at h with ha
    · injection h with hbv
      rw [← ha, ← hbv]
      exact List.mem_cons_self _ _
    · exact List.mem_cons_of_mem _ (ih k v h)

/-- `groupAdd` preserves a property of all grouped values. -/
theorem groupAdd_values {α : Type} (P : α → Prop) (d : List (String × List α))
    (k : String) (v : α) (hd : ∀ p ∈ d, ∀ x ∈ p.2, P x) (hv : P v) :
    ∀ p ∈ groupAdd d k v, ∀ x ∈ p.2, P x := by
  intro p hp x hx
  unfold groupAdd at hp
  split_ifs at hp with h
  · rcases List.mem_map.mp hp with ⟨q, hq, hqe⟩
    by_cases hqk : q.1 = k
    · rw [if_pos hqk] at hqe
      rw [← hqe] at hx
      rcases List.mem_append.mp hx with h1 | h2
      · exact hd q hq x h1
      · rw [show x = v by simpa using h2]
        exact hv
    · rw [if_neg hqk] at hqe
      exact hd q hq x (by rw [hqe]; exact hx)
  · rcases List.mem_append.mp hp with h1 | h2
    · exact hd p h1 x hx
    · rw [show p = (k, [v]) by simpa using h2] at hx
      rw [show x = v by simpa using hx]
      exact hv

/-- Every question result grouped by `criterionGroups` comes from the input
list, so a property of all inputs holds for all grouped values. -/
theorem criterionGroups_values (P : QuestionScoreResult → Prop)
    (qs : List (String × QuestionScoreResult)) (hq : ∀ p ∈ qs, P p.2) :
    ∀ p ∈ criterionGroups qs, ∀ x ∈ p.2, P x := by
  suffices h : ∀ (l : List (String × QuestionScoreResult)) acc,
      (∀ p ∈ acc, ∀ x ∈ p.2, P x) → (∀ p ∈ l, P p.2) →
      ∀ p ∈ l.foldl (fun d q => groupAdd d q.2.criterion q.2) acc,
        ∀ x ∈ p.2, P x by
    exact h qs [] (by simp) hq
  intro l
  induction l with
  | nil =>
    intro acc hacc _ p hp
    exact hacc p hp
  | cons q t ih =>
    intro acc hacc hl p hp
    exact ih (groupAdd acc q.2.criterion q.2)
      (groupAdd_values P acc _ _ hacc (hl q (List.mem_cons_self _ _)))
      (fun r hr => hl r (List.mem_cons_of_mem _ hr)) p hp

/-- Every criterion entry collected by `mkTierData` is a value of the
criterion-results dict. -/
theorem mem_mkTierData_criteria (crs : List (String × CriterionResult))
    (t : RubricTier) (c : String × CriterionResult)
    (hc : c ∈ (mkTierData crs t).criteria) : ∃ k, dictGet crs k = some c.2 := by
  have h : ∀ (cl : List RubricCriterion) (acc : List (String × CriterionResult)),
      (∀ e ∈ acc, ∃ k, dictGet crs k = some e.2) →
      ∀ e ∈ cl.foldl (fun d cr =>
          match dictGet crs cr.id with
          | some r => dictSet d cr.id r
          | Option.none => d) acc,
        ∃ k, dictGet crs k = some e.2 := by
    intro cl
    induction cl with
    | nil =>
      intro acc hacc e he
      exact hacc e he
    | cons cr tl ih =>
      intro acc hacc e he
      simp only [List.foldl_cons] at he
      rcases hget : dictGet crs cr.id with _ | r
      · rw [hget] at he
        exact ih acc hacc e he
      · rw [hget] at he
        refine ih (dictSet acc cr.id r) ?_ e he
        intro f hf
        rcases mem_dictSet acc cr.id r f hf with h1 | h2
        · exact hacc f h1
        · exact ⟨cr.id, by rw [h2, hget]⟩
  exact h t.criteria [] (by simp) c hc

/-- `score_question` only produces scores in [1,5] when the question's
checklist `yes_value` lies in [1,5]: a yes scores `yes_value`, a no scores 1,
and a scale answer is truncated from a value in [1,5]. -/
theorem scoreQuestion_score_bounds (q : Question) (a : PyVal)
    (hy : q.qtype = "checklist" → 1 ≤ q.yes_value ∧ q.yes_value ≤ 5)
    (s : ℚ) (hs : (score_question q a).score = some s) : 1 ≤ s ∧ s ≤ 5 := by
  by_cases h1 : a = PyVal.none
  · unfold score_question at hs
    rw [if_pos h1] at hs
    simp at hs
  by_cases h2 : q.qtype = "checklist"
  · unfold score_question at hs
    rw [if_neg h1, if_pos h2] at hs
    rcases a with _ | b | n | qq | st
    · exact absurd rfl h1
    · cases b
      · have hs' : some (1 : ℚ) = some s := hs
        injection hs' with hv
        rw [← hv]
        norm_num
      · have hs' : some q.yes_value = some s := hs
        injection hs' with hv
        rw [← hv]
        exact hy h2
    · have hs' : (Option.none : Option ℚ) = some s := hs
      simp at hs'
    · have hs' : (Option.none : Option ℚ) = some s := hs
      simp at hs'
    · have hs' : (Option.none : Option ℚ) = some s := hs
      simp at hs'
  by_cases h3 : q.qtype = "scale"
  · unfold score_question at hs
    rw [if_neg h1, if_neg h2, if_pos h3] at hs
    by_cases hc : a.isNumeric = true ∧ 1 ≤ a.toRat ∧ a.toRat ≤ 5
    · rw [if_pos hc] at hs
      obtain ⟨hnum, hlo, hhi⟩ := hc
      have hs' : some ((a.toPyInt : ℤ) : ℚ) = some s := hs
      injection hs' with hv
      rw [← hv]
      rcases a with _ | b | n | qq | st
      · exact absurd rfl h1
      · cases b
        · exact absurd hlo (by norm_num [PyVal.toRat])
        · norm_num [PyVal.toPyInt]
      · simp only [PyVal.toRat] at hlo hhi
        simp only [PyVal.toPyInt]
        exact ⟨by exact_mod_cast hlo, by exact_mod_cast hhi⟩
      · simp only [PyVal.toRat] at hlo hhi
        simp only [PyVal.toPyInt, ratTrunc]
        have h0 : (0 : ℚ) ≤ qq := le_trans (by norm_num) hlo
        rw [if_pos h0]
        have hfle : (Rat.floor qq : ℚ) ≤ qq := Rat.le_floor.mp (le_refl _)
        have hfge : (1 : ℤ) ≤ Rat.floor qq := Rat.le_floor.mpr (by exact_mod_cast hlo)
        constructor
        · exact_mod_cast hfge
        · linarith
      · exact absurd hnum (by simp [PyVal.isNumeric])
    · rw [if_neg hc] at hs
      simp at hs
  · unfold score_question at hs
    rw [if_neg h1, if_neg h2, if_neg h3] at hs
    by_cases h4 : q.qtype = "text"
    · rw [if_pos h4] at hs
      dsimp only at hs
      split_ifs at hs <;> simp at hs
    · rw [if_neg h4] at hs
      simp at hs

/-- The mean of a nonempty list of rationals in [1,5] lies in [1,5]. -/
theorem list_mean_bounds (l : List ℚ) (hne : ¬ l = [])
    (hb : ∀ x ∈ l, 1 ≤ x ∧ x ≤ 5) :
    1 ≤ l.sum / (l.length : ℚ) ∧ l.sum / (l.length : ℚ) ≤ 5 := by
  have hlen : (0 : ℚ) < (l.length : ℚ) := by
    have := List.length_pos.mpr hne
    exact_mod_cast this
  have hlow := List.card_nsmul_le_sum l 1 (fun x hx => (hb x hx).1)
  have hhigh := List.sum_le_card_nsmul l 5 (fun x hx => (hb x hx).2)
  rw [nsmul_eq_mul] at hlow hhigh
  constructor
  · rw [le_div_iff hlen]
    linarith
  · rw [div_le_iff hlen]
    linarith

/-- Half-to-even rounding respects integer upper bounds. -/
theorem pyRound_le (n : ℤ) (x : ℚ) (h : x ≤ (n : ℚ)) : pyRound x ≤ n := by
  unfold pyRound
  dsimp only
  have hfle : (Rat.floor x : ℚ) ≤ x := Rat.le_floor.mp (le_refl _)
  have hfl : Rat.floor x ≤ n := by
    have : (Rat.floor x : ℚ) ≤ (n : ℚ) := le_trans hfle h
    exact_mod_cast this
  split_ifs with hr1 hr2 hev
  · exact hfl
  · have hlt : (Rat.floor x : ℚ) < (n : ℚ) := by linarith
    have : Rat.floor x < n := by exact_mod_cast hlt
    omega
  · exact hfl
  · have heq : x - (Rat.floor x : ℚ) = 1/2 := le_antisymm (not_lt.mp hr2) (not_lt.mp hr1)
    have hlt : (Rat.floor x : ℚ) < (n : ℚ) := by linarith
    have : Rat.floor x < n := by exact_mod_cast hlt
    omega

/-- Half-to-even rounding respects integer lower bounds. -/
theorem pyRound_ge (n : ℤ) (x : ℚ) (h : (n : ℚ) ≤ x) : n ≤ pyRound x := by
  unfold pyRound
  dsimp only
  have hf : n ≤ Rat.floor x := Rat.le_floor.mpr h
  split_ifs <;> omega

/-- Rounding to two decimals keeps a value of [1,5] inside [1,5]. -/
theorem round2_bounds (x : ℚ) (hlo : 1 ≤ x) (hhi : x ≤ 5) :
    1 ≤ round2 x ∧ round2 x ≤ 5 := by
  unfold round2
  have h100 : (100 : ℤ) ≤ pyRound (x * 100) :=
    pyRound_ge 100 (x * 100) (by push_cast; linarith)
  have h500 : pyRound (x * 100) ≤ (500 : ℤ) :=
    pyRound_le 500 (x * 100) (by push_cast; linarith)
  have hc1 : (100 : ℚ) ≤ (pyRound (x * 100) : ℚ) := by exact_mod_cast h100
  have hc5 : ((pyRound (x * 100) : ℚ)) ≤ 500 := by exact_mod_cast h500
  constructor
  · rw [le_div_iff (by norm_num : (0 : ℚ) < 100)]
    linarith
  · rw [div_le_iff (by norm_num : (0 : ℚ) < 100)]
    linarith

/-- If every non-null question score is in [1,5], the criterion average is. -/
theorem computeCriterionScore_bounds (l : List QuestionScoreResult)
    (hb : ∀ r ∈ l, ∀ s : ℚ, r.score = some s → 1 ≤ s ∧ s ≤ 5)
    (s : ℚ) (hs : (compute_criterion_score l).score = some s) :
    1 ≤ s ∧ s ≤ 5 := by
  unfold compute_criterion_score at hs
  dsimp only at hs
  split_ifs at hs with hemp
  have hsc : ∀ x ∈ (l.filter (fun r => r.score.isSome)).map
      (fun r => r.score.getD 0), 1 ≤ x ∧ x ≤ 5 := by
    intro x hx
    rcases List.mem_map.mp hx with ⟨r, hr, rfl⟩
    have hrl := List.mem_of_mem_filter hr
    have hrs : r.score.isSome = true := by simpa using List.of_mem_filter hr
    rcases Option.isSome_iff_exists.mp hrs with ⟨v, hv⟩
    rw [hv]
    simpa using hb r hrl v hv
  have hne : ¬ (l.filter (fun r => r.score.isSome)).map
      (fun r => r.score.getD 0) = [] := by
    intro h0
    rw [List.map_eq_nil_iff] at h0
    rw [h0] at hemp
    simp at hemp
  have hm := list_mean_bounds _ hne hsc
  rw [List.length_map] at hm
  dsimp only at hs
  rw [Option.some_inj] at hs
  rw [← hs]
  exact round2_bounds _ hm.1 hm.2

/-- C8 (amended): provided every checklist question's `yes_value` lies in
[1,5] — which the code does not enforce — every criterion result the pipeline
produces, whether in the criterion-results set or stored inside a tier of the
result document, has its non-null score within [1.0, 5.0]. -/
theorem criterion_scores_bounded (rubric : Rubric) (qn : List Question)
    (responses : List (String × PyVal))
    (hy : ∀ q ∈ qn, q.qtype = "checklist" →
      1 ≤ q.yes_value ∧ q.yes_value ≤ 5) :
    (∀ p ∈ scoringCriterionResults rubric qn responses, ∀ s : ℚ,
      p.2.score = some s → 1 ≤ s ∧ s ≤ 5) ∧
    (∀ p ∈ (runScoring rubric qn responses).tier_scores, ∀ c ∈ p.2.criteria,
      ∀ s : ℚ, c.2.score = some s → 1 ≤ s ∧ s ≤ 5) := by
  have hqs : ∀ p ∈ questionScores (build_question_index qn) responses,
      ∀ s : ℚ, p.2.score = some s → 1 ≤ s ∧ s ≤ 5 := by
    intro p hp s hs
    rcases List.mem_map.mp hp with ⟨e, he, rfl⟩
    have heq : e.2 ∈ qn := by
      rcases List.mem_map.mp (mem_dictOf _ e he) with ⟨q, hq, hqe⟩
      rw [← hqe]
      exact hq
    exact scoreQuestion_score_bounds e.2 _ (hy e.2 heq) s hs
  have hcrs : ∀ p ∈ scoringCriterionResults rubric qn responses, ∀ s : ℚ,
      p.2.score = some s → 1 ≤ s ∧ s ≤ 5 := by
    intro p hp s hs
    unfold scoringCriterionResults criterionResults at hp
    rcases List.mem_map.mp hp with ⟨g, hg, rfl⟩
    refine computeCriterionScore_bounds g.2 ?_ s hs
    intro r hr s' hs'
    exact criterionGroups_values
      (fun r => ∀ s' : ℚ, r.score = some s' → 1 ≤ s' ∧ s' ≤ 5)
      _ hqs g hg r hr s' hs'
  refine ⟨hcrs, ?_⟩
  intro p hp c hc s hs
  have hp2 : p ∈ (rubric.tiers.map (fun t =>
      (t.id, mkTierData (scoringCriterionResults rubric qn responses) t))) :=
    mem_dictOf _ p hp
  rcases List.mem_map.mp hp2 with ⟨t, _, hpe⟩
  rw [← hpe] at hc
  rcases mem_mkTierData_criteria _ t c hc with ⟨k, hk⟩
  exact hcrs (k, c.2) (dictGet_mem _ k c.2 hk) s hs

/-- Witness for C8: the single scale-question run's only stored criterion
entry has score 4.0, and the theorem instantiated at that concrete entry
bounds it inside [1,5]. -/
theorem criterion_scores_bounded_witness : 1 ≤ (4 : ℚ) ∧ (4 : ℚ) ≤ 5 :=
  (criterion_scores_bounded rubricW questionsW [("q1", PyVal.int 4)]
      (by decide)).2
    ("tier_0", mkTierData (scoringCriterionResults rubricW questionsW
        [("q1", PyVal.int 4)]) ⟨"tier_0", "Tier 0: Foundation", [⟨"c0", "C0", some 1⟩]⟩)
    (by decide)
    ("c0", mkCriterionResult (build_criterion_index rubricW) "c0"
        [{ score_question ⟨"q1", "scale", 0, "c0", "tier_0"⟩ (PyVal.int 4) with
           criterion := "c0", tier := "tier_0" }])
    (by decide) 4 (by decide)

end Debmm

